import Mathlib

/-!
Verification of the nncore training-engine repository: a shallow embedding
of `src/nncore/engine/engine.py` and `src/nncore/engine/hooks/events.py`,
with the parts of the repository that are imported but not shipped in `src/`
(the `Hook` base class, the metrics `Buffer`, and the `bind_hooks` event
dispatchers) modelled from the specification, and theorems settling the
spec's claims about registration, counters, event-writer firing, buffer
flushing, tensorboard key dispatch, ETA computation and dispatch order.
-/

namespace NNCore

/-- Modelled from the spec: the `Hook` base class (`engine/hooks/base.py` is
not in `src/`). Per the spec, hook identity/uniqueness is by name, so a hook
is represented by its name plus nothing else that registration inspects. -/
structure Hook where
  name : String
deriving DecidableEq, Repr

/-- Modelled from the spec: Python membership `hook in self._hooks` with
hook identity given by name ("uniqueness by name" in the data model). -/
def hookInList (h : Hook) (hooks : List Hook) : Bool :=
  hooks.any (fun g => g.name == h.name)

/-- Modelled from the spec: Python membership `before in self._hooks` where
`before` is `None` or a hook name (a `str`). `None` never equals a registered
hook, and a string matches exactly the hooks carrying that name. -/
def beforeInList : Option String → List Hook → Bool
  | none, _ => false
  | some b, hooks => hooks.any (fun g => g.name == b)

/-- Embeds `format(before)`: Python renders `None` as the string `"None"`
inside the not-found error message. -/
def beforeStr : Option String → String
  | none => "None"
  | some b => b

/-- The two `ValueError`s `Engine.register_hook` can raise
(engine.py lines 43-46), tagged by kind; `msg` below renders the exact
Python message text. -/
inductive RegError where
  | hookExists (name : String)
  | hookNotFound (before : String)
deriving DecidableEq, Repr

/-- The exact Python exception message (the token is wrapped in single
quotes, written via escapes). -/
def RegError.msg : RegError → String
  | .hookExists n => "hook '" ++ n ++ "' exists"
  | .hookNotFound b => "hook '" ++ b ++ "' not found"

/-- Embeds `self._hooks.insert(self._hooks.index(before), hook)`
(engine.py lines 50-51): insert `h` immediately before the first hook
named `b`. -/
def insertBefore (hooks : List Hook) (b : String) (h : Hook) : List Hook :=
  match hooks with
  | [] => [h]
  | g :: gs => if g.name == b then h :: g :: gs else g :: insertBefore gs b h

/-- Outcome of one `register_hook` call: the exception raised (if any), the
hook list after the call (unchanged when an exception is raised, since the
mutation is the last statement), and how many times `hook.on_register` ran. -/
structure RegOutcome where
  error : Option RegError
  hooks : List Hook
  onRegisterCalls : Nat
deriving DecidableEq, Repr

/-- Embeds `Engine.register_hook` (engine.py lines 27-53) on the path where
`hook` is already a `Hook` instance. Note the source line 45 reads
`if before not in self._hooks:` with no `before is not None` guard, so the
not-found check also fires when `before` is `None`. -/
def register_hook (hooks : List Hook) (h : Hook) (before : Option String) :
    RegOutcome :=
  if hookInList h hooks then
    ⟨some (.hookExists h.name), hooks, 0⟩
  else if beforeInList before hooks = false then
    ⟨some (.hookNotFound (beforeStr before)), hooks, 0⟩
  else
    match before with
    | some b => ⟨none, insertBefore hooks b h, 1⟩
    | none => ⟨none, hooks ++ [h], 1⟩

/-- Modelled from the spec: `register_hook` as its own docstring and spec
section 4.2 describe it — "The new hook will be inserted into the end of the
hook list by default", with the not-found check applying only when `before`
is given. Used to state what the intended registration resolves to. -/
def register_hook_spec (hooks : List Hook) (h : Hook) (before : Option String) :
    Except RegError (List Hook) :=
  if hookInList h hooks then
    .error (.hookExists h.name)
  else
    match before with
    | some b =>
        if beforeInList (some b) hooks then .ok (insertBefore hooks b h)
        else .error (.hookNotFound b)
    | none => .ok (hooks ++ [h])

/-- Train/eval mode of the model, switched by the engine before an epoch. -/
inductive ModelMode where
  | train
  | eval
deriving DecidableEq, Repr

/-- The engine state surface the claims are about: the attributes set by
`Engine.__init__` (engine.py lines 22-25). `step` models the `_step`
attribute read by `train_step`, which `__init__` never sets (`none` means
the attribute is absent, so reading it raises `AttributeError`);
`modelMode` records the last `model.train()` / `model.eval()` switch. -/
structure Engine where
  hooks : List Hook
  stage : Nat
  epoch : Nat
  iter : Nat
  step : Option Nat
  modelMode : Option ModelMode
deriving DecidableEq, Repr

/-- Embeds `Engine.__init__` (engine.py lines 12-25) with a `Hook` instance
as the `hooks` argument: sets `_hooks = []`, calls
`register_hook(hooks)` (i.e. with `before=None`), and on return re-assigns
`_hooks = []` and zeroes the counters. A raised `ValueError` propagates. -/
def engine_init (h : Hook) : Except RegError Engine :=
  match (register_hook [] h none).error with
  | some e => .error e
  | none => .ok ⟨[], 0, 0, 0, none, none⟩

/-- Modelled from the spec: `Engine.__init__` with registration behaving as
the docstring/spec intend (default append); used to state the completion
state the constructor was written to produce. -/
def engine_init_spec (h : Hook) : Except RegError Engine :=
  match register_hook_spec [] h none with
  | .error e => .error e
  | .ok _ => .ok ⟨[], 0, 0, 0, none, none⟩

/-- Embeds `Engine.train_step` (engine.py lines 55-59): hook dispatch, then
`self._step += 1`, which first reads `self._step` and raises
`AttributeError` when the attribute was never assigned. -/
def train_step (e : Engine) : Except String Engine :=
  match e.step with
  | none =>
      .error "'Engine' object has no attribute '_step'"
  | some s => .ok { e with step := some (s + 1) }

/-- Embeds `Engine.val_step` (engine.py lines 61-64): hook dispatch only, no
counter is touched. -/
def val_step (e : Engine) : Engine :=
  e

/-- Embeds `Engine.train_epoch` (engine.py lines 66-71): `model.train()`,
hook dispatch, then `self._epoch += 1`. -/
def train_epoch (e : Engine) : Engine :=
  { e with modelMode := some .train, epoch := e.epoch + 1 }

/-- Embeds `Engine.val_epoch` (engine.py lines 73-77): `model.eval()` and
hook dispatch; no counter is touched. -/
def val_epoch (e : Engine) : Engine :=
  { e with modelMode := some .eval }

/-- Embeds Python `key.startswith('_')` on the key's character list. -/
def startsWithUnderscore (key : String) : Bool :=
  match key.data with
  | [] => false
  | c :: _ => c == '_'

/-- Embeds Python `key.endswith('_')` on the key's character list. -/
def endsWithUnderscore (key : String) : Bool :=
  match key.data.getLast? with
  | none => false
  | some c => c == '_'

/-- Modelled from the spec: the metrics `Buffer` (its module is not in
`src/`) maps each key, in insertion order, to the ordered history of
recorded values; `clear(key)` drops the history but keeps the key. Values
are modelled as rationals, enough for the flushing claims. -/
def Buffer : Type := List (String × List ℚ)

/-- The recorded history of `key`, `none` when the key was never recorded
(first match, as in a keyed mapping). -/
def bufferHistory (b : Buffer) (key : String) : Option (List ℚ) :=
  match b with
  | [] => none
  | p :: rest => if p.1 == key then some p.2 else bufferHistory rest key

/-- Embeds `EventWriterHook._empty_buffer` (events.py lines 213-216): for
every tracked key not starting with `'_'`, call `engine.buffer.clear(key)`,
which empties the history while keeping the key tracked. -/
def empty_buffer (b : Buffer) : Buffer :=
  b.map (fun p => if startsWithUnderscore p.1 then p else (p.1, []))

/-- The position of one training iteration inside its epoch, the engine
state the firing helpers read: the 1-based count of completed training
iterations in the current epoch and the epoch's total iteration count. -/
structure IterView where
  iterInEpoch : Nat
  epochLen : Nat
deriving DecidableEq, Repr

/-- Modelled from the spec: `Hook.last_iter_in_epoch` (base.py is not in
`src/`): the current iteration is the epoch's last one. -/
def last_iter_in_epoch (v : IterView) : Bool :=
  v.iterInEpoch == v.epochLen

/-- Modelled from the spec: `Hook.every_n_iters` (base.py is not in
`src/`): per spec section 8, the hook fires on iteration N when
`(N - epoch_start_iter) mod interval == 0`, where `N - epoch_start_iter`
is the 1-based count of completed iterations in the epoch (the reading
fixed by the spec's interval=2 scenario firing at iterations 2 and 4). -/
def every_n_iters (v : IterView) (n : Nat) : Bool :=
  v.iterInEpoch % n == 0

/-- Embeds `EventWriterHook.after_train_iter` (events.py lines 228-235):
return early unless the iteration is the epoch's last or on the interval;
otherwise invoke the writers (`Bool` result) and empty the buffer. -/
def after_train_iter (v : IterView) (interval : Nat) (b : Buffer) :
    Buffer × Bool :=
  if !last_iter_in_epoch v && !every_n_iters v interval then (b, false)
  else (empty_buffer b, true)

/-- Embeds `EventWriterHook.after_val_epoch` (events.py lines 237-240):
always write, then empty the buffer. -/
def after_val_epoch (b : Buffer) : Buffer × Bool :=
  (empty_buffer b, true)

/-- Embeds Python `key.split('_')` on a character list: split at every
underscore, keeping empty fragments. -/
def splitUnderscore : List Char → List (List Char)
  | [] => [[]]
  | c :: cs =>
      let rest := splitUnderscore cs
      if c == '_' then [] :: rest
      else
        match rest with
        | r :: rs => (c :: r) :: rs
        | [] => [[c]]

/-- The log types `TensorboardWriter.write` accepts for trailing-marker
keys (events.py lines 178-181). -/
def tbLogTypes : List String :=
  ["histogram", "image", "images", "figure", "video", "audio", "text"]

/-- What `TensorboardWriter.write` does with one buffer key: skip it
(leading underscore), render rich media via `add_<logType>` under `tag`,
or render it as a numeric scalar series under `tag`. -/
inductive TBAction where
  | skip
  | rich (logType : String) (tag : String)
  | scalar (tag : String)
deriving DecidableEq, Repr

/-- Embeds the per-key body of `TensorboardWriter.write` (events.py lines
170-198): keys starting with `'_'` are skipped; keys ending with `'_'`
split on `'_'`, take `tokens[-2]` as the log type, raise
`TypeError("unsupported log type: '<type>'")` when it is not a known type
and otherwise render via `add_<type>` with tag
`''.join(tokens[:-2]) + '/' + mode`; all other keys render as scalars with
tag `key + '/' + mode`. -/
def tb_write_key (mode : String) (key : String) : Except String TBAction :=
  if startsWithUnderscore key then .ok .skip
  else if endsWithUnderscore key then
    let tokens := splitUnderscore key.data
    let logType := String.mk (tokens.getD (tokens.length - 2) [])
    if tbLogTypes.contains logType then
      .ok (.rich logType
        (String.mk (tokens.take (tokens.length - 2)).flatten ++ "/" ++ mode))
    else
      .error ("unsupported log type: '" ++ logType ++ "'")
  else .ok (.scalar (key ++ "/" ++ mode))

/-- Python `int()` applied to a rational: truncation toward zero. -/
def pyInt (q : ℚ) : ℤ :=
  if 0 ≤ q then ⌊q⌋ else ⌈q⌉

/-- The engine state `CommandLineWriter.write` reads in training mode:
global 0-based iteration, the run's starting iteration (warmup/resume
offset), total planned iterations, and
`engine.buffer.latest('_total_time')` — per the spec the moving average of
per-iteration elapsed time maintained by the timer hook (that hook is not
in `src/`). -/
structure TrainView where
  iter : Nat
  startIter : Nat
  maxIters : Nat
  totalTime : ℚ
deriving DecidableEq, Repr

/-- Embeds `num_iter_passed = engine.iter + 1 - engine.start_iter`
(events.py line 65), in integer arithmetic as Python computes it. -/
def num_iter_passed (v : TrainView) : ℤ :=
  (v.iter : ℤ) + 1 - (v.startIter : ℤ)

/-- Embeds `num_iter_left = engine.max_iters - engine.iter - 1`
(events.py line 66). -/
def num_iter_left (v : TrainView) : ℤ :=
  (v.maxIters : ℤ) - (v.iter : ℤ) - 1

/-- Embeds the ETA seconds of `CommandLineWriter.write` (events.py lines
67-68): `int(num_iter_left * total_time / num_iter_passed)` with Python
true division and `int()` truncation. -/
def cmd_eta_seconds (v : TrainView) : ℤ :=
  pyInt ((num_iter_left v : ℚ) * v.totalTime / (num_iter_passed v : ℚ))

/-- Formalisation of the claim's own words, for comparison with the code:
ETA = `remaining_iters * mean_iter_time / iters_elapsed_so_far`, rounded
down to whole seconds. -/
def spec_eta_seconds (remaining : Nat) (meanIterTime : ℚ) (elapsed : Nat) :
    ℤ :=
  ⌊(remaining : ℚ) * meanIterTime / (elapsed : ℚ)⌋

/-- Modelled from the spec: the `before_X` dispatcher generated by
`bind_hooks` (`engine/utils.py` is not in `src/`): it invokes each
registered hook's `before_<event>` callback in hook-list order; the trace
records `(hook name, callback name)` in invocation order. -/
def dispatch_before (hooks : List Hook) (event : String) :
    List (String × String) :=
  hooks.map (fun h => (h.name, "before_" ++ event))

/-- Modelled from the spec: the `after_X` dispatcher generated by
`bind_hooks`: per spec sections 4.2 and 8 it invokes the callbacks in the
same forward hook-list order as `before_X`, not reversed. -/
def dispatch_after (hooks : List Hook) (event : String) :
    List (String × String) :=
  hooks.map (fun h => (h.name, "after_" ++ event))

/-- Resolve a sequence of `register_hook(hook, before)` calls, per the
spec-intended registration semantics, into the final hook list; the first
failing call aborts. -/
def apply_registers (calls : List (Hook × Option String)) :
    Except RegError (List Hook) :=
  calls.foldlM (fun hooks c => register_hook_spec hooks c.1 c.2) []

/-- The `tokens[-2]` log-type token `TensorboardWriter.write` extracts from
a trailing-marker key (events.py line 176). -/
def tbToken (key : String) : String :=
  String.mk ((splitUnderscore key.data).getD
    ((splitUnderscore key.data).length - 2) [])

/-- The tag `''.join(tokens[:-2]) + '/' + mode` `TensorboardWriter.write`
renders a trailing-marker key under (events.py line 185). -/
def tbRichTag (mode key : String) : String :=
  String.mk ((splitUnderscore key.data).take
    ((splitUnderscore key.data).length - 2)).flatten ++ "/" ++ mode

/-- On a non-internal trailing-marker key, `tb_write_key` reduces to a
single decision on whether the extracted token is a known log type. -/
theorem tb_write_key_trailing (mode key : String)
    (hs : startsWithUnderscore key = false)
    (he : endsWithUnderscore key = true) :
    tb_write_key mode key =
      (if tbLogTypes.contains (tbToken key) then
        .ok (.rich (tbToken key) (tbRichTag mode key))
      else .error ("unsupported log type: '" ++ tbToken key ++ "'")) := by
  simp only [tb_write_key, hs, he, Bool.false_eq_true, if_false, if_true,
    tbToken, tbRichTag]

/-- C1: the spec claims `register_hook` with `before=None` (the default)
succeeds and appends, and that the not-found error fires only when `before`
is specified and unmatched. The code disagrees: line 45 reads
`if before not in self._hooks:` with no `before is not None` guard, and
`None` never matches a registered hook, so every default-argument call
raises `ValueError("hook 'None' not found")` — on an empty hook list, and
on a nonempty one — while the docstring/spec-intended registration appends
the hook. -/
theorem C1_register_hook_default_before_raises :
    (∀ h : Hook,
      register_hook [] h none = ⟨some (.hookNotFound "None"), [], 0⟩) ∧
    register_hook [⟨"timer"⟩] ⟨"ckpt"⟩ none =
      ⟨some (.hookNotFound "None"), [⟨"timer"⟩], 0⟩ ∧
    register_hook_spec [] ⟨"ckpt"⟩ none = .ok [⟨"ckpt"⟩] :=
  ⟨fun _ => rfl, by decide, rfl⟩

/-- C2: the spec claims `train_step` increments the engine's `iter` counter
by exactly 1 and `val_step` leaves it unchanged. The code's `train_step`
ends with `self._step += 1` (engine.py line 59), but `__init__` only ever
assigns `_iter`, so the statement first raises `AttributeError` on the
state the constructor produces; and even where `_step` exists, only
`_step` changes — `_iter` is never incremented. `val_step` indeed leaves
`iter` unchanged. -/
theorem C2_train_step_never_increments_iter :
    train_step ⟨[], 0, 0, 0, none, none⟩ =
      .error "'Engine' object has no attribute '_step'" ∧
    (∀ (e : Engine) (s : Nat),
      train_step { e with step := some s } =
        .ok { e with step := some (s + 1) }) ∧
    (∀ e : Engine, (val_step e).iter = e.iter) :=
  ⟨rfl, fun _ _ => rfl, fun _ => rfl⟩

/-- C3: each `train_epoch` call increments the engine's `epoch` counter by
exactly 1 (engine.py line 71), and `val_epoch` leaves it unchanged
(engine.py lines 73-77 touch no counter). -/
theorem C3_epoch_counter_increments :
    (∀ e : Engine, (train_epoch e).epoch = e.epoch + 1) ∧
    (∀ e : Engine, (val_epoch e).epoch = e.epoch) :=
  ⟨fun _ => rfl, fun _ => rfl⟩

/-- C4: `EventWriterHook.after_train_iter` invokes its writers on an
iteration exactly when it is the last of its epoch or falls on the interval
alignment, and with interval 2 over a 5-iteration epoch it fires at
iterations 2, 4 and 5. -/
theorem C4_event_writer_fire_condition :
    (∀ (v : IterView) (interval : Nat) (b : Buffer),
      (after_train_iter v interval b).2 =
        decide (v.iterInEpoch = v.epochLen ∨
          v.iterInEpoch % interval = 0)) ∧
    List.filter (fun n => (after_train_iter ⟨n, 5⟩ 2 []).2)
      [1, 2, 3, 4, 5] = [2, 4, 5] := by
  refine ⟨fun v interval b => ?_, by decide⟩
  by_cases h1 : v.iterInEpoch = v.epochLen <;>
    by_cases h2 : v.iterInEpoch % interval = 0 <;>
      simp [after_train_iter, last_iter_in_epoch, every_n_iters, h1, h2]

/-- C5: an `EventWriterHook` fire empties the buffer via `_empty_buffer`
(so does every `after_val_epoch` call), and `_empty_buffer` clears the
history of every key not starting with the internal `'_'` marker while
leaving every marker-prefixed key's history unchanged — all keys stay
tracked. -/
theorem C5_flush_clears_only_non_internal_keys :
    (∀ (v : IterView) (interval : Nat) (b : Buffer),
      (after_train_iter v interval b).1 =
        (if (after_train_iter v interval b).2 then empty_buffer b else b)) ∧
    (∀ b : Buffer, (after_val_epoch b).1 = empty_buffer b) ∧
    (∀ (b : Buffer) (key : String),
      bufferHistory (empty_buffer b) key =
        (bufferHistory b key).map
          (fun hist => if startsWithUnderscore key then hist else [])) := by
  refine ⟨fun v interval b => ?_, fun b => rfl, fun b key => ?_⟩
  · by_cases h : (!last_iter_in_epoch v && !every_n_iters v interval) = true <;>
      simp [after_train_iter, h]
  · induction b with
    | nil => rfl
    | cons p rest ih =>
      by_cases hk : p.1 = key
      · subst hk
        cases hs : startsWithUnderscore p.1 <;>
          simp [empty_buffer, bufferHistory, hs]
      · have hbeq : (p.1 == key) = false := by simp [hk]
        cases hs : startsWithUnderscore p.1 <;>
          simpa [empty_buffer, bufferHistory, hbeq, hs] using ih

/-- C6: on a non-internal buffer key carrying the trailing marker,
`TensorboardWriter.write` renders via the type-specific `add_<type>` call
exactly when the embedded `tokens[-2]` type token is one of histogram,
image, images, figure, video, audio, text, and otherwise raises
`TypeError("unsupported log type: '<token>'")` naming the offending token;
in particular `"loss_histogram_"` renders via the histogram path and
`"loss_unknowntype_"` fails with the unsupported-log-type error. -/
theorem C6_tb_write_log_type_dispatch :
    (∀ (mode key : String),
      startsWithUnderscore key = false →
      endsWithUnderscore key = true →
      ((∃ tag, tb_write_key mode key = .ok (.rich (tbToken key) tag)) ↔
        tbLogTypes.contains (tbToken key) = true) ∧
      (tbLogTypes.contains (tbToken key) = false →
        tb_write_key mode key =
          .error ("unsupported log type: '" ++ tbToken key ++ "'"))) ∧
    tb_write_key "train" "loss_histogram_" =
      .ok (.rich "histogram" "loss/train") ∧
    tb_write_key "train" "loss_unknowntype_" =
      .error "unsupported log type: 'unknowntype'" := by
  refine ⟨fun mode key hs he => ?_, rfl, rfl⟩
  rw [tb_write_key_trailing mode key hs he]
  cases hc : tbLogTypes.contains (tbToken key) with
  | false => simp
  | true => simp

/-- Witness for C6 at the keys `"loss_histogram_"` and
`"loss_unknowntype_"`, discharging the leading/trailing-marker hypotheses
there. -/
theorem C6_tb_write_log_type_dispatch_witness :
    (∃ tag, tb_write_key "train" "loss_histogram_" =
      .ok (.rich (tbToken "loss_histogram_") tag)) ∧
    tb_write_key "train" "loss_unknowntype_" =
      .error ("unsupported log type: '" ++ tbToken "loss_unknowntype_" ++ "'") :=
  ⟨((C6_tb_write_log_type_dispatch.1 "train" "loss_histogram_"
      (by decide) (by decide)).1).mpr (by decide),
   (C6_tb_write_log_type_dispatch.1 "train" "loss_unknowntype_"
      (by decide) (by decide)).2 (by decide)⟩

/-- C7: `register_hook` raises the duplicate `ValueError` exactly when a
hook with the registered hook's name is already in the list (the duplicate
check at engine.py line 43 runs first), and in that case the hook list is
unchanged and `on_register` is never called. -/
theorem C7_duplicate_hook_error :
    ∀ (hooks : List Hook) (h : Hook) (before : Option String),
      ((register_hook hooks h before).error = some (.hookExists h.name) ↔
        hookInList h hooks = true) ∧
      (hookInList h hooks = true →
        (register_hook hooks h before).hooks = hooks ∧
        (register_hook hooks h before).onRegisterCalls = 0) := by
  intro hooks h before
  cases hd : hookInList h hooks with
  | true => simp [register_hook, hd]
  | false =>
    cases hb : beforeInList before hooks with
    | false => simp [register_hook, hd, hb]
    | true =>
      cases before with
      | none => simp [beforeInList] at hb
      | some b => simp [register_hook, hd, hb]

/-- Witness for C7: registering a hook named `timer` over a list already
holding a `timer` hook yields the duplicate error, the unchanged list and
no `on_register` call. -/
theorem C7_duplicate_hook_error_witness :
    (register_hook [⟨"timer"⟩] ⟨"timer"⟩ none).error =
      some (.hookExists "timer") ∧
    (register_hook [⟨"timer"⟩] ⟨"timer"⟩ none).hooks = [⟨"timer"⟩] ∧
    (register_hook [⟨"timer"⟩] ⟨"timer"⟩ none).onRegisterCalls = 0 :=
  ⟨(C7_duplicate_hook_error [⟨"timer"⟩] ⟨"timer"⟩ none).1.mpr (by decide),
   ((C7_duplicate_hook_error [⟨"timer"⟩] ⟨"timer"⟩ none).2 (by decide)).1,
   ((C7_duplicate_hook_error [⟨"timer"⟩] ⟨"timer"⟩ none).2 (by decide)).2⟩

/-- C8: the console writer's training-mode ETA,
`int(num_iter_left * total_time / num_iter_passed)` over the buffered
`_total_time` moving average, equals
`remaining_iters * mean_iter_time / iters_elapsed_excluding_warmup`
rounded down to whole seconds, with `remaining = max_iters - iter - 1` and
`elapsed = iter + 1 - start_iter`. -/
theorem C8_console_eta_formula :
    ∀ v : TrainView,
      v.startIter ≤ v.iter → v.iter < v.maxIters → 0 ≤ v.totalTime →
      cmd_eta_seconds v =
        spec_eta_seconds (v.maxIters - v.iter - 1) v.totalTime
          (v.iter + 1 - v.startIter) := by
  intro v h1 h2 h3
  have hl : num_iter_left v = ((v.maxIters - v.iter - 1 : ℕ) : ℤ) := by
    unfold num_iter_left; omega
  have hp : num_iter_passed v = ((v.iter + 1 - v.startIter : ℕ) : ℤ) := by
    unfold num_iter_passed; omega
  have hq : (0 : ℚ) ≤
      (num_iter_left v : ℚ) * v.totalTime / (num_iter_passed v : ℚ) := by
    apply div_nonneg
    · apply mul_nonneg _ h3
      rw [hl]; push_cast; positivity
    · rw [hp]; push_cast; positivity
  unfold cmd_eta_seconds pyInt spec_eta_seconds
  rw [if_pos hq, hl, hp]
  push_cast
  rfl

/-- Witness for C8 at iteration 5 of a 10-iteration run started at 0 with
a 2-second buffered iteration time: 4 iterations remain over 6 elapsed,
so the ETA is `int(4 * 2 / 6) = 1` second on both sides. -/
theorem C8_console_eta_formula_witness :
    cmd_eta_seconds ⟨5, 0, 10, 2⟩ =
      spec_eta_seconds (10 - 5 - 1) 2 (5 + 1 - 0) ∧
    cmd_eta_seconds ⟨5, 0, 10, 2⟩ = 1 :=
  ⟨C8_console_eta_formula ⟨5, 0, 10, 2⟩ (by norm_num) (by norm_num)
      (by norm_num),
   by norm_num [cmd_eta_seconds, pyInt, num_iter_left, num_iter_passed]⟩

/-- C9: for every sequence of `register_hook` calls that resolves to a
final hook list, each `before_X` event is dispatched to the hooks in that
final registration-resolved order, and each `after_X` event is dispatched
in the same order, not reversed. -/
theorem C9_dispatch_order_forward :
    ∀ (calls : List (Hook × Option String)) (L : List Hook) (event : String),
      apply_registers calls = .ok L →
      (dispatch_before L event).map Prod.fst = L.map Hook.name ∧
      (dispatch_after L event).map Prod.fst =
        (dispatch_before L event).map Prod.fst := by
  intro calls L event _
  constructor <;> simp [dispatch_before, dispatch_after]

/-- Witness for C9: three registrations, the third inserted before hook
`b`, resolve to the order a, c, b; both dispatch traces follow exactly
that order. -/
theorem C9_dispatch_order_forward_witness :
    apply_registers [(⟨"a"⟩, none), (⟨"b"⟩, none), (⟨"c"⟩, some "b")] =
      .ok [⟨"a"⟩, ⟨"c"⟩, ⟨"b"⟩] ∧
    (dispatch_before [⟨"a"⟩, ⟨"c"⟩, ⟨"b"⟩] "train_epoch").map Prod.fst =
      ([⟨"a"⟩, ⟨"c"⟩, ⟨"b"⟩] : List Hook).map Hook.name ∧
    (dispatch_after [⟨"a"⟩, ⟨"c"⟩, ⟨"b"⟩] "train_epoch").map Prod.fst =
      (dispatch_before [⟨"a"⟩, ⟨"c"⟩, ⟨"b"⟩] "train_epoch").map Prod.fst :=
  ⟨rfl,
   (C9_dispatch_order_forward [(⟨"a"⟩, none), (⟨"b"⟩, none), (⟨"c"⟩, some "b")]
      [⟨"a"⟩, ⟨"c"⟩, ⟨"b"⟩] "train_epoch" rfl).1,
   (C9_dispatch_order_forward [(⟨"a"⟩, none), (⟨"b"⟩, none), (⟨"c"⟩, some "b")]
      [⟨"a"⟩, ⟨"c"⟩, ⟨"b"⟩] "train_epoch" rfl).2⟩

/-- C10: the claim reads `__init__` as completing with an empty hook list
and zero counters for every `hooks` argument (the list is re-assigned to
empty after the registration call). In the code, the registration call
itself — `self.register_hook(hooks)`, i.e. with `before=None` — always
raises the not-found `ValueError` of the missing `is not None` guard, so
construction never completes; under the docstring-intended registration it
completes exactly as the claim states. -/
theorem C10_engine_init_never_completes :
    (∀ h : Hook, engine_init h = .error (.hookNotFound "None")) ∧
    (∀ h : Hook, engine_init_spec h = .ok ⟨[], 0, 0, 0, none, none⟩) :=
  ⟨fun _ => rfl, fun _ => rfl⟩

end NNCore
